import Mathlib

set_option maxHeartbeats 1000000
set_option linter.unusedVariables false

/-
Verification of the terraform lifecycle orchestrator
(provision/internal/operator/terraform/operator.go).

The orchestrator source is embedded shallowly: the three public operations
Create, Status and Delete are translated statement by statement.  The helper
functions they call (workspace resolution, state artifact store, the external
engine adapter and the provider bootstrap hook) live elsewhere in the
repository and are modelled from the specification; every such definition
carries a doc comment starting with the words Modelled from the spec.

Effects are made explicit: a World value carries the tracked filesystem
state, the process stderr stream, and a trace of observable events.  An Env
value fixes the outcome of every external helper call, so each theorem
quantifies over all possible behaviors of the collaborators.  Go defer
semantics (run on every exit path, in reverse registration order, with the
deferred call arguments evaluated at the defer statement) are encoded by
applying the registered finalizers at each exit point, including the panic
exits produced by failed type assertions on the configuration map.
-/

namespace Hydroform

/-- Modelled from the spec: provider enumeration from the types package (not
under src); §3 gives ClusterIdentity a providerType drawn from an enum with
Gardener plus other providers, and only Gardener needs the bootstrap hook. -/
inductive ProviderType
  | Gardener
  | Other (name : String)
deriving DecidableEq

/-- Heterogeneous configuration values: the Go map is map from string keys to
interface values; only string and integer payloads matter to this core. -/
inductive Value
  | str (s : String)
  | int (n : Int)
deriving DecidableEq

/-- The provider configuration map, §3 ProviderConfig. -/
abbrev Config := List (String × Value)

/-- Lookup in the configuration map, first binding wins. -/
def lookupCfg : Config → String → Option Value
  | [], _ => none
  | (k, v) :: rest, key => if k = key then some v else lookupCfg rest key

/-- The Go unchecked type assertion value dot string: succeeds only when the
key was present and held a string. -/
def asString : Option Value → Option String
  | some (Value.str s) => some s
  | _ => none

/-- Modelled from the spec: per-operation timeouts of the Options surface,
§6, one duration per lifecycle operation. -/
structure Timeouts where
  create : Nat
  update : Nat
  delete : Nat
deriving DecidableEq

/-- Modelled from the spec: the Options record of §6, supplied at
construction: verbose, persistent, the data directory and the timeouts. -/
structure Options where
  verbose : Bool
  persistent : Bool
  dataDir : String
  timeouts : Timeouts
deriving DecidableEq

/-- The Terraform operator struct: it holds its Options. -/
structure Terraform where
  ops : Options
deriving DecidableEq

/-- Modelled from the spec: the applyTimeouts helper is not under src; per
§4.1 step 1 it merges the configured per-operation timeout durations into the
configuration map, touching only the dedicated timeout keys. -/
def applyTimeouts (cfg : Config) (t : Timeouts) : Config :=
  ("create_timeout", Value.int t.create) ::
    ("update_timeout", Value.int t.update) ::
      ("delete_timeout", Value.int t.delete) :: cfg

/-- §3 ClusterIdentity: the (dataDir, project, clusterName, providerType)
tuple that keys one workspace and its state artifact. -/
structure Identity where
  dataDir : String
  project : String
  clusterName : String
  provider : ProviderType
deriving DecidableEq

/-- Modelled from the spec: the StateArtifact of §3, an opaque snapshot whose
only observable used by this core is the list of owned resources (the
statefile HasResources query). -/
structure StateArtifact where
  resources : List String
deriving DecidableEq

/-- The HasResources query on a state artifact: at least one owned resource. -/
def StateArtifact.HasResources (sf : StateArtifact) : Bool :=
  !sf.resources.isEmpty

/-- Modelled from the spec: ClusterInfo of §3, provider connection details
read back from the workspace after a successful apply; opaque here. -/
structure ClusterInfo where
  endpoint : String
deriving DecidableEq

/-- Modelled from the spec: the phase enumeration of ClusterStatus, §3. -/
inductive Phase
  | Unknown
  | Pending
  | Provisioned
  | Errored
deriving DecidableEq

/-- §3 ClusterStatus: a phase derived from the state artifact. -/
structure ClusterStatus where
  phase : Phase
deriving DecidableEq

/-- Observable events recorded while an operation runs, used to state the
ordering, frame and never-invoked properties. -/
inductive Event
  | suppressStderr
  | restoreStderrEv
  | mkWorkspace (id : Identity)
  | gardenerInit
  | engineInit (id : Identity)
  | materializeConfig (id : Identity)
  | stateRead (id : Identity)
  | stateWrite (id : Identity)
  | engineApply (id : Identity)
  | engineDestroy (id : Identity)
  | cleanupRun (id : Identity)
deriving DecidableEq

/-- The process stderr stream: the real stream, the null device after a
successful redirect, or the nil file left behind when opening the null device
fails (Go assigns the nil result before checking the error). -/
inductive StderrStream
  | real
  | devNull
  | nilStream
deriving DecidableEq

/-- Tracked filesystem state: which workspace directories exist, which state
artifacts are stored, and which workspaces have materialized config files. -/
structure FS where
  workspaces : List Identity
  states : List (Identity × StateArtifact)
  configs : List Identity
deriving DecidableEq

/-- The full mutable world an operation acts on. -/
structure World where
  fs : FS
  stderr : StderrStream
  trace : List Event
deriving DecidableEq

/-- Outcomes of every external helper call, fixed up front so theorems range
over all collaborator behaviors: each Option String is none for success or
some error message for failure. -/
structure Env where
  devNullErr : Option String
  clusterDirErr : Option String
  gardenerErr : Option String
  tfInitErr : Option String
  initClusterFilesErr : Option String
  tfApplyErr : Option String
  tfDestroyErr : Option String
  stateToFileErr : Option String
  stateParseErr : Option String
  clusterInfoErr : Option String
  clusterInfoVal : ClusterInfo
  appliedState : StateArtifact
  partialState : Option StateArtifact
deriving DecidableEq

/-- Result of a Go call: either a panic (failed type assertion) or a normal
return value. -/
inductive GoResult (α : Type)
  | panic (msg : String)
  | ok (a : α)
deriving DecidableEq

/-- The pkg-errors Wrap combinator: message colon space cause. -/
def wrap (msg err : String) : String := msg ++ ": " ++ err

/-- The runtime message of a failed type assertion on a missing or non-string
configuration key. -/
def interfaceConversionMsg : String :=
  "interface conversion: interface is nil, not string"

/-- Association lookup of a stored state artifact by identity. -/
def lookupState : Identity → List (Identity × StateArtifact) → Option StateArtifact
  | _, [] => none
  | id, (k, s) :: rest => if k = id then some s else lookupState id rest

/-- Add a workspace identity to a directory listing without duplicating it. -/
def insertId (id : Identity) (l : List Identity) : List Identity :=
  if id ∈ l then l else id :: l

/-- Remove every occurrence of a workspace identity from a listing. -/
def removeId : Identity → List Identity → List Identity
  | _, [] => []
  | id, x :: rest => if x = id then removeId id rest else x :: removeId id rest

/-- Remove the stored state artifacts of one identity. -/
def removeState : Identity → List (Identity × StateArtifact) → List (Identity × StateArtifact)
  | _, [] => []
  | id, kv :: rest => if kv.1 = id then removeState id rest else kv :: removeState id rest

/-- The deterministic workspace path of an identity, §6 persisted layout. -/
def pathOf (id : Identity) : String :=
  id.dataDir ++ "/" ++ id.project ++ "/" ++ id.clusterName ++ "/" ++
    (match id.provider with
      | ProviderType.Gardener => "gardener"
      | ProviderType.Other n => n)

/-- Modelled from the spec: the clusterDir helper (Workspace Manager resolve,
§4.2) is not under src; it computes the deterministic directory of the triple,
creates it, and fails with a filesystem error on path problems. -/
def clusterDir (env : Env) (dataDir project clusterName : String) (p : ProviderType)
    (w : World) : World × Except String String :=
  match env.clusterDirErr with
  | some e => (w, Except.error e)
  | none =>
    let id : Identity := ⟨dataDir, project, clusterName, p⟩
    ({ w with
        fs := { w.fs with workspaces := insertId id w.fs.workspaces }
        trace := w.trace ++ [Event.mkWorkspace id] },
      Except.ok (pathOf id))

/-- Modelled from the spec: the cleanup helper (Workspace Manager cleanup,
§4.2) is not under src; it recursively removes the workspace tree of the
identity, so afterwards the directory, its state artifact and its config
files are gone. -/
def cleanup (dataDir project clusterName : String) (p : ProviderType) (w : World) : World :=
  let id : Identity := ⟨dataDir, project, clusterName, p⟩
  { fs :=
      { workspaces := removeId id w.fs.workspaces
        states := removeState id w.fs.states
        configs := removeId id w.fs.configs }
    stderr := w.stderr
    trace := w.trace ++ [Event.cleanupRun id] }

/-- Modelled from the spec: the initGardenerProvider hook (§4.5 prepare) is
not under src; a process-wide one-time setup that may fail. -/
def initGardenerProvider (env : Env) (w : World) : World × Option String :=
  ({ w with trace := w.trace ++ [Event.gardenerInit] }, env.gardenerErr)

/-- Modelled from the spec: the tfInit adapter call (§4.4 init) is not under
src; external engine initialization against the workspace, may fail. -/
def tfInit (env : Env) (ops : Options) (p : ProviderType) (cfg : Config) (id : Identity)
    (w : World) : World × Option String :=
  ({ w with trace := w.trace ++ [Event.engineInit id] }, env.tfInitErr)

/-- Modelled from the spec: the initClusterFiles helper (§4.3
materializeConfig) is not under src; writes the provider configuration into
the workspace input files, may fail. -/
def initClusterFiles (env : Env) (dataDir : String) (p : ProviderType) (cfg : Config)
    (id : Identity) (w : World) : World × Option String :=
  match env.initClusterFilesErr with
  | some e => ({ w with trace := w.trace ++ [Event.materializeConfig id] }, some e)
  | none =>
    ({ w with
        fs := { w.fs with configs := insertId id w.fs.configs }
        trace := w.trace ++ [Event.materializeConfig id] }, none)

/-- Modelled from the spec: the tfApply adapter call (§4.4 apply) is not
under src; on success the engine leaves the resulting state artifact in the
workspace, on failure it may leave partially-written state. -/
def tfApply (env : Env) (ops : Options) (p : ProviderType) (cfg : Config) (id : Identity)
    (w : World) : World × Option String :=
  let w1 := { w with trace := w.trace ++ [Event.engineApply id] }
  match env.tfApplyErr with
  | none =>
    ({ w1 with
        fs := { w1.fs with states := (id, env.appliedState) :: removeState id w1.fs.states } },
      none)
  | some e =>
    match env.partialState with
    | some s =>
      ({ w1 with
          fs := { w1.fs with states := (id, s) :: removeState id w1.fs.states } }, some e)
    | none => (w1, some e)

/-- Modelled from the spec: the tfDestroy adapter call (§4.4 destroy) is not
under src; tears down the infrastructure described by the workspace state,
may fail, and its failure is surfaced as-is. -/
def tfDestroy (env : Env) (ops : Options) (p : ProviderType) (cfg : Config) (id : Identity)
    (w : World) : World × Option String :=
  ({ w with trace := w.trace ++ [Event.engineDestroy id] }, env.tfDestroyErr)

/-- Modelled from the spec: the stateFromFile helper (§4.3 readFromWorkspace)
is not under src; fails if no artifact file exists for the identity or the
stored artifact is unparsable, otherwise returns it. -/
def stateFromFile (env : Env) (dataDir project clusterName : String) (p : ProviderType)
    (w : World) : World × Except String StateArtifact :=
  let id : Identity := ⟨dataDir, project, clusterName, p⟩
  let w1 := { w with trace := w.trace ++ [Event.stateRead id] }
  match lookupState id w.fs.states with
  | none => (w1, Except.error "state file not found")
  | some s =>
    match env.stateParseErr with
    | some e => (w1, Except.error e)
    | none => (w1, Except.ok s)

/-- Modelled from the spec: the stateToFile helper (§4.3 writeToWorkspace) is
not under src; overwrites the stored artifact of the identity, may fail with
a filesystem error. -/
def stateToFile (env : Env) (sf : StateArtifact) (dataDir project clusterName : String)
    (p : ProviderType) (w : World) : World × Option String :=
  match env.stateToFileErr with
  | some e => (w, some e)
  | none =>
    let id : Identity := ⟨dataDir, project, clusterName, p⟩
    ({ w with
        fs := { w.fs with states := (id, sf) :: removeState id w.fs.states }
        trace := w.trace ++ [Event.stateWrite id] }, none)

/-- Modelled from the spec: the clusterInfoFromFile helper (§4.3
readClusterInfo) is not under src; parses the engine output files of the
workspace after apply, returning the info or an error. -/
def clusterInfoFromFile (env : Env) (dataDir project clusterName : String)
    (p : ProviderType) (w : World) : World × Option ClusterInfo × Option String :=
  match env.clusterInfoErr with
  | some e => (w, none, some e)
  | none => (w, some env.clusterInfoVal, none)

/-- The deferred stderr restore: assigns the saved stream back. -/
def restoreStderr (saved : StderrStream) (w : World) : World :=
  { w with stderr := saved, trace := w.trace ++ [Event.restoreStderrEv] }

/-- The deferred ephemeral cleanup: runs only when the operator is not
persistent (operator.go lines 48-51 and 116-119). -/
def deferCleanupIf (persistent : Bool) (dataDir project clusterName : String)
    (p : ProviderType) (w : World) : World :=
  if persistent then w else cleanup dataDir project clusterName p w

/-- The part of Create after the defers are registered and the identity
strings asserted: workspace resolution, Gardener bootstrap, engine init,
config materialization, engine apply, ClusterInfo read (operator.go lines
53-75).  Every early return passes back through the registered defers, which
the caller Create applies. -/
def CreateBody (t : Terraform) (env : Env) (p : ProviderType) (cfg : Config)
    (project clusterName : String) (w1 : World) : World × Option ClusterInfo × Option String :=
  match clusterDir env t.ops.dataDir project clusterName p w1 with
  | (w2, Except.error e) => (w2, none, some e)
  | (w2, Except.ok _) =>
    let id : Identity := ⟨t.ops.dataDir, project, clusterName, p⟩
    let g := if p = ProviderType.Gardener then initGardenerProvider env w2 else (w2, none)
    match g with
    | (w3, some e) => (w3, none, some (wrap "could not initialize the gardener provider" e))
    | (w3, none) =>
      match tfInit env t.ops p cfg id w3 with
      | (w4, some e) => (w4, none, some e)
      | (w4, none) =>
        match initClusterFiles env t.ops.dataDir p cfg id w4 with
        | (w5, some e) => (w5, none, some (wrap "Could not initialize cluster data" e))
        | (w5, none) =>
          match tfApply env t.ops p cfg id w5 with
          | (w6, some e) => (w6, none, some e)
          | (w6, none) => clusterInfoFromFile env t.ops.dataDir project clusterName p w6

/-- Create (operator.go lines 33-76): timeout merge; stderr silencing only
when not verbose, with an early error return if opening the null device
fails; deferred ephemeral cleanup whose arguments assert the identity keys;
then the body.  Defers run in reverse order on every exit, including the
panic exit of a failed assertion. -/
def Create (t : Terraform) (env : Env) (p : ProviderType) (cfg0 : Config) (w0 : World) :
    World × GoResult (Option ClusterInfo × Option String) :=
  let cfg := applyTimeouts cfg0 t.ops.timeouts
  if t.ops.verbose then
    match asString (lookupCfg cfg "project"), asString (lookupCfg cfg "cluster_name") with
    | some project, some clusterName =>
      let r := CreateBody t env p cfg project clusterName w0
      (deferCleanupIf t.ops.persistent t.ops.dataDir project clusterName p r.1,
        GoResult.ok r.2)
    | _, _ => (w0, GoResult.panic interfaceConversionMsg)
  else
    match env.devNullErr with
    | some e => ({ w0 with stderr := StderrStream.nilStream }, GoResult.ok (none, some e))
    | none =>
      let saved := w0.stderr
      let w1 := { w0 with
        stderr := StderrStream.devNull
        trace := w0.trace ++ [Event.suppressStderr] }
      match asString (lookupCfg cfg "project"), asString (lookupCfg cfg "cluster_name") with
      | some project, some clusterName =>
        let r := CreateBody t env p cfg project clusterName w1
        (restoreStderr saved
            (deferCleanupIf t.ops.persistent t.ops.dataDir project clusterName p r.1),
          GoResult.ok r.2)
      | _, _ => (restoreStderr saved w1, GoResult.panic interfaceConversionMsg)

/-- Status (operator.go lines 79-100): timeout merge; if no artifact is
supplied, load one from the workspace, degrading to phase Unknown plus a
wrapped error on failure; otherwise derive the phase from HasResources.  No
engine invocation, no writes, no cleanup. -/
def Status (t : Terraform) (env : Env) (sf : Option StateArtifact) (p : ProviderType)
    (cfg0 : Config) (w0 : World) : World × GoResult (Option ClusterStatus × Option String) :=
  let cfg := applyTimeouts cfg0 t.ops.timeouts
  match sf with
  | some s =>
    (w0, GoResult.ok
      (some { phase := if s.HasResources then Phase.Provisioned else Phase.Unknown }, none))
  | none =>
    match asString (lookupCfg cfg "project"), asString (lookupCfg cfg "cluster_name") with
    | some project, some clusterName =>
      match stateFromFile env t.ops.dataDir project clusterName p w0 with
      | (w1, Except.error e) =>
        (w1, GoResult.ok (some { phase := Phase.Unknown },
          some (wrap "no state provided, attempted to load from file" e)))
      | (w1, Except.ok s) =>
        (w1, GoResult.ok
          (some { phase := if s.HasResources then Phase.Provisioned else Phase.Unknown },
            none))
    | _, _ => (w0, GoResult.panic interfaceConversionMsg)

/-- The part of Delete after the defers are registered and the identity
strings asserted: workspace resolution, Gardener bootstrap, engine init,
config materialization, state reconciliation (load when none supplied,
persist when supplied), then destroy (operator.go lines 121-156). -/
def DeleteBody (t : Terraform) (env : Env) (sf : Option StateArtifact) (p : ProviderType)
    (cfg : Config) (project clusterName : String) (w1 : World) : World × Option String :=
  match clusterDir env t.ops.dataDir project clusterName p w1 with
  | (w2, Except.error e) => (w2, some e)
  | (w2, Except.ok _) =>
    let id : Identity := ⟨t.ops.dataDir, project, clusterName, p⟩
    let g := if p = ProviderType.Gardener then initGardenerProvider env w2 else (w2, none)
    match g with
    | (w3, some e) => (w3, some (wrap "could not initialize the gardener provider" e))
    | (w3, none) =>
      match tfInit env t.ops p cfg id w3 with
      | (w4, some e) => (w4, some e)
      | (w4, none) =>
        match initClusterFiles env t.ops.dataDir p cfg id w4 with
        | (w5, some e) => (w5, some (wrap "Could not initialize cluster data" e))
        | (w5, none) =>
          match sf with
          | none =>
            match stateFromFile env t.ops.dataDir project clusterName p w5 with
            | (w6, Except.error e) =>
              (w6, some (wrap "no state provided, attempted to load from file" e))
            | (w6, Except.ok _) => tfDestroy env t.ops p cfg id w6
          | some s =>
            match stateToFile env s t.ops.dataDir project clusterName p w5 with
            | (w6, some e) => (w6, some (wrap "could not store state into file" e))
            | (w6, none) => tfDestroy env t.ops p cfg id w6

/-- Delete (operator.go lines 103-157): timeout merge; stderr silencing
unconditionally (unlike Create there is no verbose check, lines 106-113),
with an early error return if opening the null device fails; deferred
ephemeral cleanup whose arguments assert the identity keys; then the body. -/
def Delete (t : Terraform) (env : Env) (sf : Option StateArtifact) (p : ProviderType)
    (cfg0 : Config) (w0 : World) : World × GoResult (Option String) :=
  let cfg := applyTimeouts cfg0 t.ops.timeouts
  match env.devNullErr with
  | some e => ({ w0 with stderr := StderrStream.nilStream }, GoResult.ok (some e))
  | none =>
    let saved := w0.stderr
    let w1 := { w0 with
      stderr := StderrStream.devNull
      trace := w0.trace ++ [Event.suppressStderr] }
    match asString (lookupCfg cfg "project"), asString (lookupCfg cfg "cluster_name") with
    | some project, some clusterName =>
      let r := DeleteBody t env sf p cfg project clusterName w1
      (restoreStderr saved
          (deferCleanupIf t.ops.persistent t.ops.dataDir project clusterName p r.1),
        GoResult.ok r.2)
    | _, _ => (restoreStderr saved w1, GoResult.panic interfaceConversionMsg)

/-- The events CreateBody appends after the engine init step ran, as a
function of the helper outcomes. -/
def createPostInitEvents (env : Env) (id : Identity) : List Event :=
  Event.engineInit id ::
    (match env.tfInitErr with
      | some _ => []
      | none =>
        Event.materializeConfig id ::
          (match env.initClusterFilesErr with
            | some _ => []
            | none => [Event.engineApply id]))

/-- The events CreateBody appends, as a function of the helper outcomes. -/
def createNewEvents (env : Env) (p : ProviderType) (id : Identity) : List Event :=
  match env.clusterDirErr with
  | some _ => []
  | none =>
    Event.mkWorkspace id ::
      (if p = ProviderType.Gardener then
        Event.gardenerInit ::
          (match env.gardenerErr with
            | some _ => []
            | none => createPostInitEvents env id)
      else createPostInitEvents env id)

/-- The returned (info, error) pair of CreateBody, as a function of the
helper outcomes. -/
def createResult (env : Env) (p : ProviderType) : Option ClusterInfo × Option String :=
  match env.clusterDirErr with
  | some e => (none, some e)
  | none =>
    match (if p = ProviderType.Gardener then env.gardenerErr else none) with
    | some e => (none, some (wrap "could not initialize the gardener provider" e))
    | none =>
      match env.tfInitErr with
      | some e => (none, some e)
      | none =>
        match env.initClusterFilesErr with
        | some e => (none, some (wrap "Could not initialize cluster data" e))
        | none =>
          match env.tfApplyErr with
          | some e => (none, some e)
          | none =>
            match env.clusterInfoErr with
            | some e => (none, some e)
            | none => (some env.clusterInfoVal, none)

/-- The events DeleteBody appends after the engine init step ran, as a
function of the helper outcomes, the supplied artifact and the states stored
when the operation started. -/
def deletePostInitEvents (env : Env) (sf : Option StateArtifact) (id : Identity)
    (fs : FS) : List Event :=
  Event.engineInit id ::
    (match env.tfInitErr with
      | some _ => []
      | none =>
        Event.materializeConfig id ::
          (match env.initClusterFilesErr with
            | some _ => []
            | none =>
              match sf with
              | none =>
                Event.stateRead id ::
                  (match lookupState id fs.states with
                    | none => []
                    | some _ =>
                      match env.stateParseErr with
                      | some _ => []
                      | none => [Event.engineDestroy id])
              | some _ =>
                match env.stateToFileErr with
                | some _ => []
                | none => [Event.stateWrite id, Event.engineDestroy id]))

/-- The events DeleteBody appends, as a function of the helper outcomes, the
supplied artifact and the initial stored states. -/
def deleteNewEvents (env : Env) (sf : Option StateArtifact) (p : ProviderType)
    (id : Identity) (fs : FS) : List Event :=
  match env.clusterDirErr with
  | some _ => []
  | none =>
    Event.mkWorkspace id ::
      (if p = ProviderType.Gardener then
        Event.gardenerInit ::
          (match env.gardenerErr with
            | some _ => []
            | none => deletePostInitEvents env sf id fs)
      else deletePostInitEvents env sf id fs)

/-- The spec-side step order of a fully successful Create call (§4.1 steps
2-9): optional stderr silencing, workspace creation, optional Gardener
bootstrap, engine init, config materialization, engine apply, optional
ephemeral cleanup, stderr restore. -/
def createSuccessTrace (t : Terraform) (p : ProviderType) (id : Identity) : List Event :=
  (if t.ops.verbose then [] else [Event.suppressStderr]) ++
    [Event.mkWorkspace id] ++
    (if p = ProviderType.Gardener then [Event.gardenerInit] else []) ++
    [Event.engineInit id, Event.materializeConfig id, Event.engineApply id] ++
    (if t.ops.persistent then [] else [Event.cleanupRun id]) ++
    (if t.ops.verbose then [] else [Event.restoreStderrEv])

/-- The spec-side step order of a Delete call with a supplied state artifact
whose engine steps all run (§4.1): stderr silencing, workspace creation,
optional Gardener bootstrap, engine init, config materialization, state
persistence, destroy, optional ephemeral cleanup, stderr restore. -/
def deleteStateSuppliedTrace (t : Terraform) (p : ProviderType) (id : Identity) : List Event :=
  [Event.suppressStderr] ++
    [Event.mkWorkspace id] ++
    (if p = ProviderType.Gardener then [Event.gardenerInit] else []) ++
    [Event.engineInit id, Event.materializeConfig id, Event.stateWrite id,
      Event.engineDestroy id] ++
    (if t.ops.persistent then [] else [Event.cleanupRun id]) ++
    [Event.restoreStderrEv]

/-- A configuration carrying the two identity keys as strings. -/
def cfgEx : Config := [("project", Value.str "p1"), ("cluster_name", Value.str "c1")]

/-- A configuration missing the cluster_name key. -/
def cfgNoCluster : Config := [("project", Value.str "p1")]

/-- Ephemeral, non-verbose options. -/
def optsEph : Options :=
  { verbose := false, persistent := false, dataDir := "/data"
    timeouts := { create := 30, update := 30, delete := 30 } }

/-- An operator with ephemeral, non-verbose options. -/
def tEph : Terraform := { ops := optsEph }

/-- An operator with persistent options. -/
def tPers : Terraform := { ops := { optsEph with persistent := true } }

/-- An operator with verbose, persistent options. -/
def tVerbose : Terraform := { ops := { optsEph with verbose := true, persistent := true } }

/-- A non-Gardener provider. -/
def provX : ProviderType := ProviderType.Other "gcp"

/-- The identity derived from cfgEx under optsEph and provX. -/
def idEx : Identity :=
  { dataDir := "/data", project := "p1", clusterName := "c1", provider := provX }

/-- A state artifact owning one resource. -/
def sfOne : StateArtifact := { resources := ["google_container_cluster.c1"] }

/-- A state artifact owning no resources. -/
def sfEmpty : StateArtifact := { resources := [] }

/-- An empty initial world. -/
def worldEx : World :=
  { fs := { workspaces := [], states := [], configs := [] }
    stderr := StderrStream.real, trace := [] }

/-- A world in which the workspace directory of idEx already exists. -/
def worldPre : World :=
  { fs := { workspaces := [idEx], states := [], configs := [] }
    stderr := StderrStream.real, trace := [] }

/-- An environment in which every helper call succeeds. -/
def envOK : Env :=
  { devNullErr := none, clusterDirErr := none, gardenerErr := none, tfInitErr := none
    initClusterFilesErr := none, tfApplyErr := none, tfDestroyErr := none
    stateToFileErr := none, stateParseErr := none, clusterInfoErr := none
    clusterInfoVal := { endpoint := "https://cluster.example" }
    appliedState := { resources := ["module.cluster"] }
    partialState := none }

/-- An environment in which opening the null device fails. -/
def envDevNullFail : Env := { envOK with devNullErr := some "open null device failed" }

/-- An environment in which the Gardener bootstrap hook fails. -/
def envGardenerFail : Env := { envOK with gardenerErr := some "boom" }

theorem lookupCfg_applyTimeouts_project (cfg : Config) (ts : Timeouts) :
    lookupCfg (applyTimeouts cfg ts) "project" = lookupCfg cfg "project" := by
  simp [applyTimeouts, lookupCfg]

theorem lookupCfg_applyTimeouts_clusterName (cfg : Config) (ts : Timeouts) :
    lookupCfg (applyTimeouts cfg ts) "cluster_name" = lookupCfg cfg "cluster_name" := by
  simp [applyTimeouts, lookupCfg]

theorem not_mem_removeId (id : Identity) (l : List Identity) : id ∉ removeId id l := by
  induction l with
  | nil => simp [removeId]
  | cons x rest ih =>
    by_cases h : x = id
    · simpa [removeId, h] using ih
    · simp [removeId, h, List.mem_cons, ih]
      exact fun he => h he.symm

theorem createBody_trace (t : Terraform) (env : Env) (p : ProviderType) (cfg : Config)
    (project clusterName : String) (w : World) :
    (CreateBody t env p cfg project clusterName w).1.trace =
      w.trace ++ createNewEvents env p ⟨t.ops.dataDir, project, clusterName, p⟩ := by
  obtain ⟨dv, cd, ge, ti, icf, ta, td, stf, sp, cie, civ, ast, ps⟩ := env
  rcases p with _ | pn <;> rcases cd with _ | e1 <;> rcases ge with _ | e2 <;>
    rcases ti with _ | e3 <;> rcases icf with _ | e4 <;> rcases ta with _ | e5 <;>
    rcases cie with _ | e6 <;> rcases ps with _ | s1 <;>
      simp [CreateBody, createNewEvents, createPostInitEvents, clusterDir,
        initGardenerProvider, tfInit, initClusterFiles, tfApply, clusterInfoFromFile,
        List.append_assoc]

theorem createBody_result (t : Terraform) (env : Env) (p : ProviderType) (cfg : Config)
    (project clusterName : String) (w : World) :
    (CreateBody t env p cfg project clusterName w).2 = createResult env p := by
  obtain ⟨dv, cd, ge, ti, icf, ta, td, stf, sp, cie, civ, ast, ps⟩ := env
  rcases p with _ | pn <;> rcases cd with _ | e1 <;> rcases ge with _ | e2 <;>
    rcases ti with _ | e3 <;> rcases icf with _ | e4 <;> rcases ta with _ | e5 <;>
    rcases cie with _ | e6 <;> rcases ps with _ | s1 <;>
      simp [CreateBody, createResult, clusterDir, initGardenerProvider, tfInit,
        initClusterFiles, tfApply, clusterInfoFromFile]

theorem deleteBody_trace (t : Terraform) (env : Env) (sf : Option StateArtifact)
    (p : ProviderType) (cfg : Config) (project clusterName : String) (w : World) :
    (DeleteBody t env sf p cfg project clusterName w).1.trace =
      w.trace ++
        deleteNewEvents env sf p ⟨t.ops.dataDir, project, clusterName, p⟩ w.fs := by
  obtain ⟨dv, cd, ge, ti, icf, ta, td, stf, sp, cie, civ, ast, ps⟩ := env
  rcases hls : lookupState ⟨t.ops.dataDir, project, clusterName, p⟩ w.fs.states
      with _ | s0 <;>
    rcases p with _ | pn <;>
    rcases sf with _ | s <;> rcases cd with _ | e1 <;> rcases ge with _ | e2 <;>
    rcases ti with _ | e3 <;> rcases icf with _ | e4 <;> rcases sp with _ | e5 <;>
    rcases stf with _ | e6 <;>
      simp [DeleteBody, deleteNewEvents, deletePostInitEvents, clusterDir,
        initGardenerProvider, tfInit, initClusterFiles, stateFromFile, stateToFile,
        tfDestroy, hls, List.append_assoc]

theorem cleanupRun_not_mem_createNewEvents (env : Env) (p : ProviderType) (id j : Identity) :
    Event.cleanupRun j ∉ createNewEvents env p id := by
  obtain ⟨dv, cd, ge, ti, icf, ta, td, stf, sp, cie, civ, ast, ps⟩ := env
  rcases p with _ | pn <;> rcases cd with _ | e1 <;> rcases ge with _ | e2 <;>
    rcases ti with _ | e3 <;> rcases icf with _ | e4 <;>
      simp [createNewEvents, createPostInitEvents]

theorem cleanupRun_not_mem_deleteNewEvents (env : Env) (sf : Option StateArtifact)
    (p : ProviderType) (id j : Identity) (fs : FS) :
    Event.cleanupRun j ∉ deleteNewEvents env sf p id fs := by
  obtain ⟨dv, cd, ge, ti, icf, ta, td, stf, sp, cie, civ, ast, ps⟩ := env
  rcases hls : lookupState id fs.states with _ | s0 <;>
    rcases p with _ | pn <;> rcases sf with _ | s <;> rcases cd with _ | e1 <;>
    rcases ge with _ | e2 <;> rcases ti with _ | e3 <;> rcases icf with _ | e4 <;>
    rcases sp with _ | e5 <;> rcases stf with _ | e6 <;>
      simp [deleteNewEvents, deletePostInitEvents, hls]

theorem engineInit_mem_createNewEvents (env : Env) (p : ProviderType) (id j : Identity)
    (h : Event.engineInit j ∈ createNewEvents env p id) : env.clusterDirErr = none := by
  obtain ⟨dv, cd, ge, ti, icf, ta, td, stf, sp, cie, civ, ast, ps⟩ := env
  rcases cd with _ | e1
  · rfl
  · simp [createNewEvents] at h

theorem engineApply_mem_createNewEvents (env : Env) (p : ProviderType) (id j : Identity)
    (h : Event.engineApply j ∈ createNewEvents env p id) :
    env.clusterDirErr = none ∧ env.tfInitErr = none ∧ env.initClusterFilesErr = none := by
  obtain ⟨dv, cd, ge, ti, icf, ta, td, stf, sp, cie, civ, ast, ps⟩ := env
  rcases p with _ | pn <;> rcases cd with _ | e1 <;> rcases ge with _ | e2 <;>
    rcases ti with _ | e3 <;> rcases icf with _ | e4 <;>
      simp_all [createNewEvents, createPostInitEvents]

/-- C9: a Status call mutates no workspace state: the filesystem and the
stderr stream are untouched, and the only event it can append to the trace is
a single read of the stored state artifact (when no artifact was supplied);
in particular it never creates or deletes a workspace, never invokes the
external engine, and never writes a state artifact. -/
theorem C9_status_readonly (t : Terraform) (env : Env) (sf : Option StateArtifact)
    (p : ProviderType) (cfg : Config) (w : World) :
    (Status t env sf p cfg w).1.fs = w.fs ∧
    (Status t env sf p cfg w).1.stderr = w.stderr ∧
    ((Status t env sf p cfg w).1.trace = w.trace ∨
      ∃ id, (Status t env sf p cfg w).1.trace = w.trace ++ [Event.stateRead id]) := by
  rcases sf with _ | s
  · rcases h1 : asString (lookupCfg (applyTimeouts cfg t.ops.timeouts) "project")
        with _ | proj
    · simp [Status, h1]
    · rcases h2 : asString (lookupCfg (applyTimeouts cfg t.ops.timeouts) "cluster_name")
          with _ | cn
      · simp [Status, h1, h2]
      · rcases hls : lookupState ⟨t.ops.dataDir, proj, cn, p⟩ w.fs.states with _ | s0
        · simp [Status, stateFromFile, h1, h2, hls]
        · rcases hsp : env.stateParseErr with _ | e <;>
            simp [Status, stateFromFile, h1, h2, hls, hsp]
  · simp [Status]

/-- C10: Create, Delete and Status-without-artifact demand the config keys
project and cluster_name with string values: when either is missing or not a
string (and the operation reaches the identity derivation, that is, the
stderr redirect did not fail first), the call aborts with a runtime panic
from the failed type assertion rather than returning an error value, while
Status with a supplied artifact never consults those keys. -/
theorem C10_identity_assertion_panics (t : Terraform) (env : Env) (sf : Option StateArtifact)
    (p : ProviderType) (cfg : Config) (w : World) (hdev : env.devNullErr = none)
    (hbad : asString (lookupCfg cfg "project") = none ∨
      asString (lookupCfg cfg "cluster_name") = none) :
    (Create t env p cfg w).2 = GoResult.panic interfaceConversionMsg ∧
    (Delete t env sf p cfg w).2 = GoResult.panic interfaceConversionMsg ∧
    (Status t env none p cfg w).2 = GoResult.panic interfaceConversionMsg ∧
    ∀ s, ∃ res, (Status t env (some s) p cfg w).2 = GoResult.ok res := by
  have hbp := lookupCfg_applyTimeouts_project cfg t.ops.timeouts
  have hbc := lookupCfg_applyTimeouts_clusterName cfg t.ops.timeouts
  rcases h1 : asString (lookupCfg cfg "project") with _ | proj <;>
    rcases h2 : asString (lookupCfg cfg "cluster_name") with _ | cn <;>
    rcases hv : t.ops.verbose <;>
    simp only [h1, h2] at hbad <;>
    simp_all [Create, Delete, Status, restoreStderr]

/-- C5: whenever the state artifact of a Status call is available, either
supplied by the caller or successfully loaded from the workspace, the
returned ClusterStatus has phase Provisioned exactly when the artifact
reports at least one owned resource, and phase Unknown otherwise, with no
error. -/
theorem C5_status_phase (t : Terraform) (env : Env) (sf : Option StateArtifact)
    (p : ProviderType) (cfg : Config) (w : World) (s : StateArtifact)
    (project clusterName : String)
    (hproj : asString (lookupCfg cfg "project") = some project)
    (hcn : asString (lookupCfg cfg "cluster_name") = some clusterName)
    (hav : sf = some s ∨ (sf = none ∧
      lookupState ⟨t.ops.dataDir, project, clusterName, p⟩ w.fs.states = some s ∧
      env.stateParseErr = none)) :
    ∃ cs, (Status t env sf p cfg w).2 = GoResult.ok (some cs, none) ∧
      (cs.phase = Phase.Provisioned ↔ s.resources ≠ []) ∧
      (cs.phase = Phase.Unknown ↔ s.resources = []) := by
  have hbp := lookupCfg_applyTimeouts_project cfg t.ops.timeouts
  have hbc := lookupCfg_applyTimeouts_clusterName cfg t.ops.timeouts
  rcases hav with rfl | ⟨rfl, hls, hsp⟩
  · refine ⟨{ phase := if s.HasResources then Phase.Provisioned else Phase.Unknown },
      by simp [Status], ?_, ?_⟩ <;>
      rcases hr : s.resources with _ | ⟨a, rest⟩ <;>
        simp [StateArtifact.HasResources, hr]
  · refine ⟨{ phase := if s.HasResources then Phase.Provisioned else Phase.Unknown },
      by simp [Status, stateFromFile, hbp, hbc, hproj, hcn, hls, hsp], ?_, ?_⟩ <;>
      rcases hr : s.resources with _ | ⟨a, rest⟩ <;>
        simp [StateArtifact.HasResources, hr]

/-- C6: a Status call with no supplied artifact whose load from the workspace
fails (no stored artifact, or an unparsable one) returns a non-nil
ClusterStatus with phase Unknown together with an error wrapped with the
message no state provided, attempted to load from file. -/
theorem C6_status_load_failure (t : Terraform) (env : Env) (p : ProviderType) (cfg : Config)
    (w : World) (project clusterName : String)
    (hproj : asString (lookupCfg cfg "project") = some project)
    (hcn : asString (lookupCfg cfg "cluster_name") = some clusterName)
    (hfail : lookupState ⟨t.ops.dataDir, project, clusterName, p⟩ w.fs.states = none ∨
      env.stateParseErr ≠ none) :
    ∃ e, (Status t env none p cfg w).2 =
      GoResult.ok (some { phase := Phase.Unknown },
        some (wrap "no state provided, attempted to load from file" e)) := by
  have hbp := lookupCfg_applyTimeouts_project cfg t.ops.timeouts
  have hbc := lookupCfg_applyTimeouts_clusterName cfg t.ops.timeouts
  rcases hfail with hls | hsp
  · exact ⟨"state file not found",
      by simp [Status, stateFromFile, hbp, hbc, hproj, hcn, hls]⟩
  · rcases hls : lookupState ⟨t.ops.dataDir, project, clusterName, p⟩ w.fs.states with _ | s0
    · exact ⟨"state file not found",
        by simp [Status, stateFromFile, hbp, hbc, hproj, hcn, hls]⟩
    · rcases hsp2 : env.stateParseErr with _ | e
      · exact absurd hsp2 hsp
      · exact ⟨e, by simp [Status, stateFromFile, hbp, hbc, hproj, hcn, hls, hsp2]⟩

/-- C2: a Delete call with no supplied state artifact, reaching the state
reconciliation step (redirect, workspace resolution, bootstrap, engine init
and config materialization all succeed), whose load from the workspace fails
returns an error wrapped with the message no state provided, attempted to
load from file, and the external engine destroy verb is never invoked. -/
theorem C2_delete_load_failure (t : Terraform) (env : Env) (p : ProviderType) (cfg : Config)
    (w : World) (project clusterName : String) (id : Identity)
    (hproj : asString (lookupCfg cfg "project") = some project)
    (hcn : asString (lookupCfg cfg "cluster_name") = some clusterName)
    (hid : id = ⟨t.ops.dataDir, project, clusterName, p⟩)
    (hdev : env.devNullErr = none) (hcd : env.clusterDirErr = none)
    (hg : env.gardenerErr = none) (hti : env.tfInitErr = none)
    (hicf : env.initClusterFilesErr = none) (htr : w.trace = [])
    (hfail : lookupState id w.fs.states = none ∨ env.stateParseErr ≠ none) :
    (∃ e, (Delete t env none p cfg w).2 =
        GoResult.ok (some (wrap "no state provided, attempted to load from file" e))) ∧
    Event.engineDestroy id ∉ (Delete t env none p cfg w).1.trace := by
  have hbp := lookupCfg_applyTimeouts_project cfg t.ops.timeouts
  have hbc := lookupCfg_applyTimeouts_clusterName cfg t.ops.timeouts
  subst hid
  obtain ⟨wfs, wstd, wtr⟩ := w
  simp only at htr
  subst htr
  rcases hfail with hls | hsp
  · rcases p with _ | pn <;> cases hpers : t.ops.persistent <;>
      simp [Delete, DeleteBody, clusterDir, initGardenerProvider, tfInit,
        initClusterFiles, stateFromFile, tfDestroy, deferCleanupIf, cleanup,
        restoreStderr, insertId, hdev, hcd, hg, hti, hicf, hbp, hbc, hproj, hcn,
        hls, hpers]
  · rcases hls : lookupState ⟨t.ops.dataDir, project, clusterName, p⟩ wfs.states
        with _ | s0 <;>
      rcases hsp2 : env.stateParseErr with _ | e
    · rcases p with _ | pn <;> cases hpers : t.ops.persistent <;>
        simp [Delete, DeleteBody, clusterDir, initGardenerProvider, tfInit,
          initClusterFiles, stateFromFile, tfDestroy, deferCleanupIf, cleanup,
          restoreStderr, insertId, hdev, hcd, hg, hti, hicf, hbp, hbc, hproj, hcn,
          hls, hpers]
    · rcases p with _ | pn <;> cases hpers : t.ops.persistent <;>
        simp [Delete, DeleteBody, clusterDir, initGardenerProvider, tfInit,
          initClusterFiles, stateFromFile, tfDestroy, deferCleanupIf, cleanup,
          restoreStderr, insertId, hdev, hcd, hg, hti, hicf, hbp, hbc, hproj, hcn,
          hls, hsp2, hpers]
    · exact absurd hsp2 hsp
    · rcases p with _ | pn <;> cases hpers : t.ops.persistent <;>
        simp [Delete, DeleteBody, clusterDir, initGardenerProvider, tfInit,
          initClusterFiles, stateFromFile, tfDestroy, deferCleanupIf, cleanup,
          restoreStderr, insertId, hdev, hcd, hg, hti, hicf, hbp, hbc, hproj, hcn,
          hls, hsp2, hpers]

/-- C3: a Delete call with a supplied state artifact, reaching the state
reconciliation step, first persists the artifact into the workspace state
store and only then invokes the engine destroy verb (visible in the event
order, and the artifact is stored afterwards when the workspace is
persistent); if persisting fails, Delete returns an error wrapped with the
message could not store state into file and destroy is not invoked. -/
theorem C3_delete_persist_before_destroy (t : Terraform) (env : Env) (p : ProviderType)
    (cfg : Config) (w : World) (project clusterName : String) (id : Identity)
    (s : StateArtifact)
    (hproj : asString (lookupCfg cfg "project") = some project)
    (hcn : asString (lookupCfg cfg "cluster_name") = some clusterName)
    (hid : id = ⟨t.ops.dataDir, project, clusterName, p⟩)
    (hdev : env.devNullErr = none) (hcd : env.clusterDirErr = none)
    (hg : env.gardenerErr = none) (hti : env.tfInitErr = none)
    (hicf : env.initClusterFilesErr = none) (htr : w.trace = []) :
    (env.stateToFileErr = none →
      (Delete t env (some s) p cfg w).1.trace = deleteStateSuppliedTrace t p id ∧
      (Delete t env (some s) p cfg w).2 = GoResult.ok env.tfDestroyErr ∧
      (t.ops.persistent = true →
        (id, s) ∈ (Delete t env (some s) p cfg w).1.fs.states)) ∧
    (∀ e, env.stateToFileErr = some e →
      (Delete t env (some s) p cfg w).2 =
        GoResult.ok (some (wrap "could not store state into file" e)) ∧
      Event.engineDestroy id ∉ (Delete t env (some s) p cfg w).1.trace) := by
  have hbp := lookupCfg_applyTimeouts_project cfg t.ops.timeouts
  have hbc := lookupCfg_applyTimeouts_clusterName cfg t.ops.timeouts
  subst hid
  obtain ⟨wfs, wstd, wtr⟩ := w
  simp only at htr
  subst htr
  constructor
  · intro hst
    rcases p with _ | pn <;> cases hpers : t.ops.persistent <;>
      simp [Delete, DeleteBody, deleteStateSuppliedTrace, clusterDir,
        initGardenerProvider, tfInit, initClusterFiles, stateToFile, tfDestroy,
        deferCleanupIf, cleanup, restoreStderr, insertId, hdev, hcd, hg, hti, hicf,
        hbp, hbc, hproj, hcn, hst, hpers]
  · intro e hst
    rcases p with _ | pn <;> cases hpers : t.ops.persistent <;>
      simp [Delete, DeleteBody, clusterDir, initGardenerProvider, tfInit,
        initClusterFiles, stateToFile, tfDestroy, deferCleanupIf, cleanup,
        restoreStderr, insertId, hdev, hcd, hg, hti, hicf, hbp, hbc, hproj, hcn,
        hst, hpers]

/-- C8 counterexample: at a concrete input (Gardener provider, bootstrap hook
failing with the message boom, everything else fine) Create returns the error
wrapped as could not initialize the gardener provider, not wrapped as
provider initialization failed as the claim states. -/
theorem C8_counterexample :
    (Create tEph envGardenerFail ProviderType.Gardener cfgEx worldEx).2 =
      GoResult.ok (none, some "could not initialize the gardener provider: boom") ∧
    GoResult.ok (α := Option ClusterInfo × Option String)
        (none, some (wrap "provider initialization failed" "boom")) ≠
      (Create tEph envGardenerFail ProviderType.Gardener cfgEx worldEx).2 := by
  constructor
  · rfl
  · decide

/-- C8 amended: for a Create or Delete call with the Gardener provider that
reaches the bootstrap hook (redirect and workspace resolution succeeded), a
bootstrap failure aborts the operation before any engine invocation, and the
returned error is the hook error wrapped as could not initialize the gardener
provider. -/
theorem C8_gardener_bootstrap_failure (t : Terraform) (env : Env) (sf : Option StateArtifact)
    (p : ProviderType) (cfg : Config) (w : World) (project clusterName : String)
    (id : Identity) (e : String)
    (hproj : asString (lookupCfg cfg "project") = some project)
    (hcn : asString (lookupCfg cfg "cluster_name") = some clusterName)
    (hid : id = ⟨t.ops.dataDir, project, clusterName, p⟩)
    (hdev : env.devNullErr = none) (hcd : env.clusterDirErr = none)
    (hp : p = ProviderType.Gardener) (hg : env.gardenerErr = some e)
    (htr : w.trace = []) :
    (Create t env p cfg w).2 =
      GoResult.ok (none, some (wrap "could not initialize the gardener provider" e)) ∧
    (Delete t env sf p cfg w).2 =
      GoResult.ok (some (wrap "could not initialize the gardener provider" e)) ∧
    Event.engineInit id ∉ (Create t env p cfg w).1.trace ∧
    Event.engineApply id ∉ (Create t env p cfg w).1.trace ∧
    Event.engineInit id ∉ (Delete t env sf p cfg w).1.trace ∧
    Event.engineDestroy id ∉ (Delete t env sf p cfg w).1.trace := by
  have hbp := lookupCfg_applyTimeouts_project cfg t.ops.timeouts
  have hbc := lookupCfg_applyTimeouts_clusterName cfg t.ops.timeouts
  subst hid hp
  obtain ⟨wfs, wstd, wtr⟩ := w
  simp only at htr
  subst htr
  cases hv : t.ops.verbose <;> cases hpers : t.ops.persistent <;>
    rcases sf with _ | s <;>
    simp [Create, CreateBody, Delete, DeleteBody, clusterDir, initGardenerProvider,
      deferCleanupIf, cleanup, restoreStderr, insertId, hdev, hcd, hg, hbp, hbc,
      hproj, hcn, hv, hpers]

/-- C4: the Create pipeline runs workspace resolution, Gardener-only
bootstrap, engine init, config materialization, engine apply and the
ClusterInfo read in that fixed order (witnessed by the success trace); any
step failure aborts the call with a nil info and an error; and Create returns
a non-nil ClusterInfo with no error exactly when every step up to and
including the info read succeeds, the info being the one read from the
workspace. -/
theorem C4_create_pipeline (t : Terraform) (env : Env) (p : ProviderType) (cfg : Config)
    (w : World) (project clusterName : String) (id : Identity)
    (hproj : asString (lookupCfg cfg "project") = some project)
    (hcn : asString (lookupCfg cfg "cluster_name") = some clusterName)
    (hid : id = ⟨t.ops.dataDir, project, clusterName, p⟩)
    (hdev : env.devNullErr = none) (htr : w.trace = []) :
    (∀ info, (Create t env p cfg w).2 = GoResult.ok (some info, none) ↔
      (env.clusterDirErr = none ∧ (p = ProviderType.Gardener → env.gardenerErr = none) ∧
        env.tfInitErr = none ∧ env.initClusterFilesErr = none ∧ env.tfApplyErr = none ∧
        env.clusterInfoErr = none ∧ info = env.clusterInfoVal)) ∧
    (∀ res, (Create t env p cfg w).2 = GoResult.ok res →
      (∃ e, res = (none, some e)) ∨ ∃ info, res = (some info, none)) ∧
    (env.clusterDirErr = none ∧ (p = ProviderType.Gardener → env.gardenerErr = none) ∧
      env.tfInitErr = none ∧ env.initClusterFilesErr = none ∧ env.tfApplyErr = none →
      (Create t env p cfg w).1.trace = createSuccessTrace t p id) ∧
    (env.tfInitErr ≠ none → Event.engineApply id ∉ (Create t env p cfg w).1.trace) ∧
    (env.clusterDirErr ≠ none → Event.engineInit id ∉ (Create t env p cfg w).1.trace) := by
  have hbp := lookupCfg_applyTimeouts_project cfg t.ops.timeouts
  have hbc := lookupCfg_applyTimeouts_clusterName cfg t.ops.timeouts
  subst hid
  obtain ⟨wfs, wstd, wtr⟩ := w
  simp only at htr
  subst htr
  have hres : (Create t env p cfg ⟨wfs, wstd, []⟩).2 = GoResult.ok (createResult env p) := by
    cases hv : t.ops.verbose <;>
      simp [Create, hdev, hbp, hbc, hproj, hcn, hv, createBody_result]
  have htrace : (Create t env p cfg ⟨wfs, wstd, []⟩).1.trace =
      (if t.ops.verbose then [] else [Event.suppressStderr]) ++
        createNewEvents env p ⟨t.ops.dataDir, project, clusterName, p⟩ ++
        (if t.ops.persistent then []
          else [Event.cleanupRun ⟨t.ops.dataDir, project, clusterName, p⟩]) ++
        (if t.ops.verbose then [] else [Event.restoreStderrEv]) := by
    cases hv : t.ops.verbose <;> cases hpers : t.ops.persistent <;>
      simp [Create, hdev, hbp, hbc, hproj, hcn, hv, hpers, deferCleanupIf, cleanup,
        restoreStderr, createBody_trace]
  refine ⟨?_, ?_, ?_, ?_, ?_⟩
  · intro info
    rw [hres]
    constructor
    · intro h
      have h2 : createResult env p = (some info, none) := GoResult.ok.inj h
      obtain ⟨dv, cd, ge, ti, icf, ta, td, stf, sp, cie, civ, ast, ps⟩ := env
      rcases p with _ | pn <;> rcases cd with _ | e1 <;> rcases ge with _ | e2 <;>
        rcases ti with _ | e3 <;> rcases icf with _ | e4 <;> rcases ta with _ | e5 <;>
        rcases cie with _ | e6 <;> simp_all [createResult]
    · rintro ⟨h1, h2, h3, h4, h5, h6, rfl⟩
      rcases p with _ | pn
      · simp [createResult, h1, h2 rfl, h3, h4, h5, h6]
      · simp [createResult, h1, h3, h4, h5, h6]
  · intro res hr
    rw [hres] at hr
    have h2 : createResult env p = res := GoResult.ok.inj hr
    subst h2
    obtain ⟨dv, cd, ge, ti, icf, ta, td, stf, sp, cie, civ, ast, ps⟩ := env
    rcases p with _ | pn <;> rcases cd with _ | e1 <;> rcases ge with _ | e2 <;>
      rcases ti with _ | e3 <;> rcases icf with _ | e4 <;> rcases ta with _ | e5 <;>
      rcases cie with _ | e6 <;> simp [createResult]
  · rintro ⟨h1, h2, h3, h4, h5⟩
    rw [htrace]
    rcases p with _ | pn
    · cases hv : t.ops.verbose <;> cases hpers : t.ops.persistent <;>
        simp [createSuccessTrace, createNewEvents, createPostInitEvents, h1, h2 rfl,
          h3, h4, hv, hpers]
    · cases hv : t.ops.verbose <;> cases hpers : t.ops.persistent <;>
        simp [createSuccessTrace, createNewEvents, createPostInitEvents, h1, h3, h4,
          hv, hpers]
  · intro hne hmem
    rw [htrace] at hmem
    cases hv : t.ops.verbose <;> cases hpers : t.ops.persistent <;>
      simp [hv, hpers, List.mem_append] at hmem <;>
      exact absurd (engineApply_mem_createNewEvents env p _ _ hmem).2.1 hne
  · intro hne hmem
    rw [htrace] at hmem
    cases hv : t.ops.verbose <;> cases hpers : t.ops.persistent <;>
      simp [hv, hpers, List.mem_append] at hmem <;>
      exact absurd (engineInit_mem_createNewEvents env p _ _ hmem) hne

/-- C1 counterexample: at a concrete input (ephemeral operator, stderr
redirect setup failing, pre-existing workspace directory) a Delete call with
persistent false returns with an error, the cleanup finalizer never ran, and
the workspace directory of the identity still exists afterwards — the
redirect-failure early return happens before the cleanup defer is
registered. -/
theorem C1_counterexample :
    tEph.ops.persistent = false ∧
    (Delete tEph envDevNullFail none provX cfgEx worldPre).2 =
      GoResult.ok (some "open null device failed") ∧
    idEx ∈ (Delete tEph envDevNullFail none provX cfgEx worldPre).1.fs.workspaces ∧
    Event.cleanupRun idEx ∉ (Delete tEph envDevNullFail none provX cfgEx worldPre).1.trace := by
  refine ⟨rfl, rfl, ?_, ?_⟩ <;> decide

/-- C1 amended: for a Create or Delete call with persistent false on which
the stderr redirect setup succeeds, the ephemeral cleanup finalizer is
scheduled before the engine is invoked and runs on every exit path after the
result is determined, so afterwards the workspace directory of the identity
does not exist and the cleanup event is in the trace; with persistent true no
cleanup ever runs. -/
theorem C1_ephemeral_cleanup (t : Terraform) (env : Env) (sf : Option StateArtifact)
    (p : ProviderType) (cfg : Config) (w : World) (project clusterName : String)
    (id : Identity)
    (hproj : asString (lookupCfg cfg "project") = some project)
    (hcn : asString (lookupCfg cfg "cluster_name") = some clusterName)
    (hid : id = ⟨t.ops.dataDir, project, clusterName, p⟩)
    (hdev : env.devNullErr = none) (htr : w.trace = []) :
    (t.ops.persistent = false →
      id ∉ (Create t env p cfg w).1.fs.workspaces ∧
      Event.cleanupRun id ∈ (Create t env p cfg w).1.trace ∧
      id ∉ (Delete t env sf p cfg w).1.fs.workspaces ∧
      Event.cleanupRun id ∈ (Delete t env sf p cfg w).1.trace) ∧
    (t.ops.persistent = true →
      Event.cleanupRun id ∉ (Create t env p cfg w).1.trace ∧
      Event.cleanupRun id ∉ (Delete t env sf p cfg w).1.trace) := by
  have hbp := lookupCfg_applyTimeouts_project cfg t.ops.timeouts
  have hbc := lookupCfg_applyTimeouts_clusterName cfg t.ops.timeouts
  subst hid
  obtain ⟨wfs, wstd, wtr⟩ := w
  simp only at htr
  subst htr
  constructor
  · intro hpf
    cases hv : t.ops.verbose <;>
      simp [Create, Delete, hdev, hbp, hbc, hproj, hcn, hv, hpf, deferCleanupIf,
        cleanup, restoreStderr, not_mem_removeId, List.mem_append]
  · intro hpt
    cases hv : t.ops.verbose <;>
      simp [Create, Delete, hdev, hbp, hbc, hproj, hcn, hv, hpt, deferCleanupIf,
        restoreStderr, createBody_trace, deleteBody_trace, List.mem_append,
        cleanupRun_not_mem_createNewEvents, cleanupRun_not_mem_deleteNewEvents]

/-- C7 counterexample: at a concrete input with verbose true, a Delete call
still redirects stderr to the null device (the suppression event is in the
trace), so the suppression is not conditional on verbose being false as the
claim states. -/
theorem C7_counterexample :
    tVerbose.ops.verbose = true ∧
    Event.suppressStderr ∈ (Delete tVerbose envOK (some sfOne) provX cfgEx worldEx).1.trace := by
  refine ⟨rfl, ?_⟩
  decide

/-- C7 amended: Delete redirects the stderr stream unconditionally — the
verbose flag is not consulted, unlike Create; when the redirect succeeds the
saved stream is restored on every exit path, and when opening the null
device fails Delete returns that error with stderr left pointing at the nil
file, unrestored. -/
theorem C7_delete_stderr (t : Terraform) (env : Env) (sf : Option StateArtifact)
    (p : ProviderType) (cfg : Config) (w : World) :
    (env.devNullErr = none →
      Event.suppressStderr ∈ (Delete t env sf p cfg w).1.trace ∧
      (Delete t env sf p cfg w).1.stderr = w.stderr) ∧
    (∀ e, env.devNullErr = some e →
      (Delete t env sf p cfg w).2 = GoResult.ok (some e) ∧
      (Delete t env sf p cfg w).1.stderr = StderrStream.nilStream) := by
  constructor
  · intro hdev
    rcases h1 : asString (lookupCfg (applyTimeouts cfg t.ops.timeouts) "project")
        with _ | proj <;>
      rcases h2 : asString (lookupCfg (applyTimeouts cfg t.ops.timeouts) "cluster_name")
        with _ | cn <;>
      cases hpers : t.ops.persistent <;>
      simp [Delete, hdev, h1, h2, hpers, deferCleanupIf, cleanup, restoreStderr,
        deleteBody_trace, List.mem_append]
  · intro e hdev
    simp [Delete, hdev]

theorem C1_witness :
    idEx ∉ (Create tEph envOK provX cfgEx worldEx).1.fs.workspaces ∧
    Event.cleanupRun idEx ∈ (Create tEph envOK provX cfgEx worldEx).1.trace ∧
    idEx ∉ (Delete tEph envOK (some sfOne) provX cfgEx worldEx).1.fs.workspaces ∧
    Event.cleanupRun idEx ∈ (Delete tEph envOK (some sfOne) provX cfgEx worldEx).1.trace :=
  (C1_ephemeral_cleanup tEph envOK (some sfOne) provX cfgEx worldEx "p1" "c1" idEx
    rfl rfl rfl rfl rfl).1 rfl

theorem C2_witness :
    (∃ e, (Delete tEph envOK none provX cfgEx worldEx).2 =
        GoResult.ok (some (wrap "no state provided, attempted to load from file" e))) ∧
    Event.engineDestroy idEx ∉ (Delete tEph envOK none provX cfgEx worldEx).1.trace :=
  C2_delete_load_failure tEph envOK provX cfgEx worldEx "p1" "c1" idEx
    rfl rfl rfl rfl rfl rfl rfl rfl rfl (Or.inl rfl)

theorem C3_witness :
    (Delete tPers envOK (some sfOne) provX cfgEx worldEx).1.trace =
      deleteStateSuppliedTrace tPers provX idEx ∧
    (Delete tPers envOK (some sfOne) provX cfgEx worldEx).2 =
      GoResult.ok envOK.tfDestroyErr ∧
    (tPers.ops.persistent = true →
      (idEx, sfOne) ∈ (Delete tPers envOK (some sfOne) provX cfgEx worldEx).1.fs.states) :=
  (C3_delete_persist_before_destroy tPers envOK provX cfgEx worldEx "p1" "c1" idEx sfOne
    rfl rfl rfl rfl rfl rfl rfl rfl rfl).1 rfl

theorem C4_witness :
    (Create tEph envOK provX cfgEx worldEx).2 =
      GoResult.ok (some envOK.clusterInfoVal, none) :=
  ((C4_create_pipeline tEph envOK provX cfgEx worldEx "p1" "c1" idEx
      rfl rfl rfl rfl rfl).1 envOK.clusterInfoVal).mpr
    ⟨rfl, by decide, rfl, rfl, rfl, rfl, rfl⟩

theorem C5_witness :
    ∃ cs, (Status tEph envOK (some sfOne) provX cfgEx worldEx).2 =
        GoResult.ok (some cs, none) ∧
      (cs.phase = Phase.Provisioned ↔ sfOne.resources ≠ []) ∧
      (cs.phase = Phase.Unknown ↔ sfOne.resources = []) :=
  C5_status_phase tEph envOK (some sfOne) provX cfgEx worldEx sfOne "p1" "c1"
    rfl rfl (Or.inl rfl)

theorem C6_witness :
    ∃ e, (Status tEph envOK none provX cfgEx worldEx).2 =
      GoResult.ok (some { phase := Phase.Unknown },
        some (wrap "no state provided, attempted to load from file" e)) :=
  C6_status_load_failure tEph envOK provX cfgEx worldEx "p1" "c1" rfl rfl (Or.inl rfl)

theorem C7_witness :
    Event.suppressStderr ∈ (Delete tEph envOK (some sfOne) provX cfgEx worldEx).1.trace ∧
    (Delete tEph envOK (some sfOne) provX cfgEx worldEx).1.stderr = worldEx.stderr :=
  (C7_delete_stderr tEph envOK (some sfOne) provX cfgEx worldEx).1 rfl

theorem C8_witness :
    (Create tEph envGardenerFail ProviderType.Gardener cfgEx worldEx).2 =
      GoResult.ok (none,
        some (wrap "could not initialize the gardener provider" "boom")) ∧
    (Delete tEph envGardenerFail none ProviderType.Gardener cfgEx worldEx).2 =
      GoResult.ok (some (wrap "could not initialize the gardener provider" "boom")) ∧
    Event.engineInit ⟨"/data", "p1", "c1", ProviderType.Gardener⟩ ∉
      (Create tEph envGardenerFail ProviderType.Gardener cfgEx worldEx).1.trace ∧
    Event.engineApply ⟨"/data", "p1", "c1", ProviderType.Gardener⟩ ∉
      (Create tEph envGardenerFail ProviderType.Gardener cfgEx worldEx).1.trace ∧
    Event.engineInit ⟨"/data", "p1", "c1", ProviderType.Gardener⟩ ∉
      (Delete tEph envGardenerFail none ProviderType.Gardener cfgEx worldEx).1.trace ∧
    Event.engineDestroy ⟨"/data", "p1", "c1", ProviderType.Gardener⟩ ∉
      (Delete tEph envGardenerFail none ProviderType.Gardener cfgEx worldEx).1.trace :=
  C8_gardener_bootstrap_failure tEph envGardenerFail none ProviderType.Gardener cfgEx
    worldEx "p1" "c1" ⟨"/data", "p1", "c1", ProviderType.Gardener⟩ "boom"
    rfl rfl rfl rfl rfl rfl rfl rfl

theorem C10_witness :
    (Create tEph envOK provX cfgNoCluster worldEx).2 =
      GoResult.panic interfaceConversionMsg ∧
    (Delete tEph envOK none provX cfgNoCluster worldEx).2 =
      GoResult.panic interfaceConversionMsg ∧
    (Status tEph envOK none provX cfgNoCluster worldEx).2 =
      GoResult.panic interfaceConversionMsg ∧
    ∃ res, (Status tEph envOK (some sfOne) provX cfgNoCluster worldEx).2 =
      GoResult.ok res :=
  ⟨(C10_identity_assertion_panics tEph envOK none provX cfgNoCluster worldEx rfl
      (Or.inr rfl)).1,
    (C10_identity_assertion_panics tEph envOK none provX cfgNoCluster worldEx rfl
      (Or.inr rfl)).2.1,
    (C10_identity_assertion_panics tEph envOK none provX cfgNoCluster worldEx rfl
      (Or.inr rfl)).2.2.1,
    (C10_identity_assertion_panics tEph envOK none provX cfgNoCluster worldEx rfl
      (Or.inr rfl)).2.2.2 sfOne⟩

end Hydroform
